import Mathlib

/-!
Verification of the campaign RSVP engine and the realtime connection
manager of the nexo_ppeam backend.

The definitions below are a shallow embedding of:
  * `backend/repository/campaigns_repository.py` (`create_campaign`,
    `rsvp_campaign` and its inner Firestore transaction `_tx`),
  * `backend/models/campaign.py` (`RSVPIn` normalization),
  * `backend/routes/campaigns.py` (`rsvp_endpoint`),
  * `backend/realtime/ws.py` (`ConnectionManager`).

Firestore documents are modelled as association lists keyed by document id;
Python ints as `Int`; the Firestore transaction runs atomically, so the
transaction body is a pure state-passing function.
-/

namespace Nexo

/-- Outcome dict returned by `rsvp_campaign` (`accepted`, `campaign_id`,
`remaining_slots`, `status` keys of the returned dict). -/
structure RSVPResult where
  accepted : Bool
  campaign_id : String
  remaining_slots : Int
  status : String
deriving Repr, DecidableEq

/-- The fields of a campaign document that the RSVP engine reads or writes,
together with its `rsvps` subcollection (doc id = contact_id, and the
`response` field of each RSVP doc). -/
structure CampaignState where
  capacity : Int
  accepted_count : Int
  status : String
  rsvps : List (String × String)
deriving Repr, DecidableEq

/-- `create_campaign`: the new campaign document is written with
`status="open"` and `accepted_count=0`; its `rsvps` subcollection is empty. -/
def create_campaign (capacity : Int) : CampaignState :=
  { capacity := capacity, accepted_count := 0, status := "open", rsvps := [] }

/-- Read the `response` field of the RSVP doc with id `contact_id`
(`rsvp_ref.get(...)` followed by `.get("response")`). -/
def lookupRSVP (l : List (String × String)) (contact_id : String) : Option String :=
  (l.find? (fun p => p.1 == contact_id)).map (fun p => p.2)

/-- `transaction.set(rsvp_ref, {..., "response": resp}, merge=True)` with
doc id = `contact_id`: overwrite the response if the doc exists (at most one
doc per contact), create it otherwise. -/
def upsertRSVP (l : List (String × String)) (contact_id : String) (resp : String) :
    List (String × String) :=
  if (l.find? (fun p => p.1 == contact_id)).isSome then
    l.map (fun p => if p.1 == contact_id then (p.1, resp) else p)
  else
    l ++ [(contact_id, resp)]

/-- The body of the Firestore transaction `_tx` inside `rsvp_campaign`,
on a campaign document that exists.  Returns the result dict and the
campaign state after the transaction commits. -/
def rsvp_tx (campaign_id : String) (c : CampaignState) (contact_id : String)
    (response : String) : RSVPResult × CampaignState :=
  if c.status ≠ "open" then
    -- ya cerrada
    ({ accepted := false, campaign_id := campaign_id,
       remaining_slots := max 0 (c.capacity - c.accepted_count),
       status := c.status }, c)
  else
    let prev := lookupRSVP c.rsvps contact_id
    if response = "yes" then
      -- si ya tenía yes, devolvemos OK sin tocar cupo
      if prev = some "yes" then
        ({ accepted := true, campaign_id := campaign_id,
           remaining_slots := max 0 (c.capacity - c.accepted_count),
           status := c.status }, c)
      -- si no hay cupo, rechazamos (y cerramos si justo se llenó)
      else if c.accepted_count ≥ c.capacity then
        ({ accepted := false, campaign_id := campaign_id,
           remaining_slots := 0, status := "closed" },
         { c with status := "closed" })
      -- hay cupo -> registramos yes e incrementamos conteo
      else
        let new_count := c.accepted_count + 1
        let new_status := if new_count ≥ c.capacity then "closed" else "open"
        ({ accepted := true, campaign_id := campaign_id,
           remaining_slots := max 0 (c.capacity - new_count),
           status := new_status },
         { c with rsvps := upsertRSVP c.rsvps contact_id "yes",
                  accepted_count := new_count,
                  status := new_status })
    else
      -- response == "no": solo registra/actualiza RSVP (no cambia cupo)
      ({ accepted := false, campaign_id := campaign_id,
         remaining_slots := max 0 (c.capacity - c.accepted_count),
         status := c.status },
       { c with rsvps := upsertRSVP c.rsvps contact_id "no" })

/-- The campaigns collection, keyed by campaign document id. -/
abbrev CampaignDb := List (String × CampaignState)

/-- `camp_ref.get(...)` on the campaigns collection. -/
def lookupCampaign (db : CampaignDb) (campaign_id : String) : Option CampaignState :=
  (db.find? (fun p => p.1 == campaign_id)).map (fun p => p.2)

/-- Commit the transaction's updates to the campaign document. -/
def setCampaign (db : CampaignDb) (campaign_id : String) (c : CampaignState) : CampaignDb :=
  db.map (fun p => if p.1 == campaign_id then (p.1, c) else p)

/-- `rsvp_campaign`: runs `_tx` transactionally.  A missing campaign raises
`ValueError("campaign_not_found")`, which aborts the transaction before any
write, leaving the collection unchanged. -/
def rsvp_campaign (db : CampaignDb) (campaign_id : String) (contact_id : String)
    (response : String) : Except String RSVPResult × CampaignDb :=
  match lookupCampaign db campaign_id with
  | none => (.error "campaign_not_found", db)
  | some c =>
    let r := rsvp_tx campaign_id c contact_id response
    (.ok r.1, setCampaign db campaign_id r.2)

/-- Python `str.strip().lower()`, modelled charwise: drop surrounding ASCII
whitespace and lower-case each character (ASCII case suffices for the alias
alphabet the validator compares against). -/
def pyStripLower (s : String) : String :=
  let ws := [' ', '\t', '\n', '\r']
  let chars :=
    ((s.data.dropWhile (fun c => ws.contains c)).reverse.dropWhile
      (fun c => ws.contains c)).reverse
  String.mk (chars.map Char.toLower)

/-- `RSVPIn._normalize` (pydantic `model_validator`): lower-cased, stripped
aliases of yes/no are rewritten to `"yes"`/`"no"`; any other value is left
untouched in the payload. -/
def normalizeResponse (resp : String) : String :=
  let r := pyStripLower resp
  if r = "yes" ∨ r = "si" ∨ r = "sí" ∨ r = "👍" ∨ r = "ok" then "yes"
  else if r = "no" ∨ r = "👎" then "no"
  else resp

/-- How an HTTP request to the rsvp route terminates: a 2xx response, an
`HTTPException` raised by the handler (a 4xx client error), or an exception
the handler does not catch (FastAPI's default turns it into an HTTP 500
server-error response). -/
inductive HttpOutcome where
  | success (res : RSVPResult)
  | clientError (statusCode : Nat) (detail : String)
  | serverError (detail : String)
deriving Repr, DecidableEq

/-- `rsvp_endpoint` (`POST /campaigns/{campaign_id}/rsvp`): pydantic runs
`RSVPIn._normalize` on the body, then the handler calls `rsvp_campaign` with
no try/except, so the `ValueError` raised for a missing campaign propagates
unhandled out of the handler (HTTP 500); it is never converted to an
`HTTPException`.  The realtime notifications sent afterwards never raise
(see `sendPersonalMessage`) and do not affect the store. -/
def rsvp_endpoint (db : CampaignDb) (campaign_id : String) (contact_id : String)
    (response : String) : HttpOutcome × CampaignDb :=
  match rsvp_campaign db campaign_id contact_id (normalizeResponse response) with
  | (.error e, db2) => (.serverError e, db2)
  | (.ok res, db2) => (.success res, db2)

/-!
## Connection manager (`backend/realtime/ws.py`)

`ConnectionManager.active : Dict[str, Set[WebSocket]]` is modelled as an
association list from contact_id to the recipient's set of sockets (a
duplicate-free list — sockets are identified by an opaque handle, here `Nat`).
All mutations of `active` happen under `self._lock`, so each operation is a
pure function on the registry.
-/

abbrev WS := Nat

abbrev Registry := List (String × List WS)

/-- `self.active.get(contact_id)`. -/
def lookupActive (r : Registry) (contact_id : String) : Option (List WS) :=
  (r.find? (fun p => p.1 == contact_id)).map (fun p => p.2)

/-- Replace the socket set stored under an existing key. -/
def setActive (r : Registry) (contact_id : String) (g : List WS) : Registry :=
  r.map (fun p => if p.1 == contact_id then (p.1, g) else p)

/-- `self.active.pop(contact_id, None)`. -/
def popActive (r : Registry) (contact_id : String) : Registry :=
  r.filter (fun p => p.1 != contact_id)

/-- `connect`: `self.active.setdefault(contact_id, set()).add(ws)` — create
the set if absent and add this socket (set add: no duplicate). -/
def wsConnect (r : Registry) (contact_id : String) (ws : WS) : Registry :=
  match lookupActive r contact_id with
  | some g => setActive r contact_id (if ws ∈ g then g else g ++ [ws])
  | none => r ++ [(contact_id, [ws])]

/-- `disconnect`: `if group and ws in group` (a missing or empty set is
falsy, modelled as membership in the set defaulting to empty) — remove `ws`
from the contact's set; if the set becomes empty, pop the entry from the
dict entirely. -/
def wsDisconnect (r : Registry) (contact_id : String) (ws : WS) : Registry :=
  let group := (lookupActive r contact_id).getD []
  if ws ∈ group then
    let g2 := group.filter (fun w => w ≠ ws)
    if g2.isEmpty then popActive r contact_id else setActive r contact_id g2
  else r

/-- The snapshot `list(self.active.get(contact_id, set()))` taken by
`send_personal_message` under the lock; also the registry's answer to
"which connections does this recipient have". -/
def connectionsOf (r : Registry) (contact_id : String) : List WS :=
  (lookupActive r contact_id).getD []

/-- The `for ws in sockets` loop of `send_personal_message`: `ws.send_json`
either succeeds (`ok ws = true`, counted) or raises (`ok ws = false`, the
socket is disconnected from the registry and the loop continues). -/
def sendLoop (ok : WS → Bool) (contact_id : String) :
    List WS → Registry → Nat × Registry
  | [], r => (0, r)
  | w :: rest, r =>
    if ok w then
      let p := sendLoop ok contact_id rest r
      (p.1 + 1, p.2)
    else
      sendLoop ok contact_id rest (wsDisconnect r contact_id w)

/-- `send_personal_message`: snapshot the contact's sockets under the lock,
then attempt delivery to each outside the lock; per-connection failures are
absorbed (the dead socket is unregistered); returns how many sends succeeded. -/
def sendPersonalMessage (ok : WS → Bool) (r : Registry) (contact_id : String) :
    Nat × Registry :=
  sendLoop ok contact_id (connectionsOf r contact_id) r

/-- Iterate `rsvp_tx` over a sequence of (contact_id, response) calls. -/
def applyRSVPs (campaign_id : String) (c : CampaignState) :
    List (String × String) → CampaignState
  | [] => c
  | (cid, resp) :: rest => applyRSVPs campaign_id (rsvp_tx campaign_id c cid resp).2 rest

theorem rsvp_tx_capacity (campaign_id : String) (c : CampaignState)
    (contact_id response : String) :
    ((rsvp_tx campaign_id c contact_id response).2).capacity = c.capacity := by
  simp only [rsvp_tx]
  split_ifs <;> rfl

theorem rsvp_tx_count_inv (campaign_id : String) (c : CampaignState)
    (contact_id response : String) (h0 : 0 ≤ c.accepted_count)
    (h1 : c.accepted_count ≤ c.capacity) :
    0 ≤ ((rsvp_tx campaign_id c contact_id response).2).accepted_count ∧
      ((rsvp_tx campaign_id c contact_id response).2).accepted_count ≤
        ((rsvp_tx campaign_id c contact_id response).2).capacity := by
  simp only [rsvp_tx]
  split_ifs with hst hyes hprev hfull <;> simp only [] <;> constructor <;> omega

theorem applyRSVPs_inv (campaign_id : String) (calls : List (String × String)) :
    ∀ c : CampaignState, 0 ≤ c.accepted_count → c.accepted_count ≤ c.capacity →
      0 ≤ (applyRSVPs campaign_id c calls).accepted_count ∧
        (applyRSVPs campaign_id c calls).accepted_count ≤
          (applyRSVPs campaign_id c calls).capacity := by
  induction calls with
  | nil => intro c h0 h1; exact ⟨h0, h1⟩
  | cons x rest ih =>
    intro c h0 h1
    obtain ⟨g0, g1⟩ := rsvp_tx_count_inv campaign_id c x.1 x.2 h0 h1
    exact ih _ g0 g1

theorem applyRSVPs_capacity (campaign_id : String) (calls : List (String × String)) :
    ∀ c : CampaignState, (applyRSVPs campaign_id c calls).capacity = c.capacity := by
  induction calls with
  | nil => intro c; rfl
  | cons x rest ih =>
    intro c
    calc (applyRSVPs campaign_id (rsvp_tx campaign_id c x.1 x.2).2 rest).capacity
        = ((rsvp_tx campaign_id c x.1 x.2).2).capacity := ih _
      _ = c.capacity := rsvp_tx_capacity campaign_id c x.1 x.2

/-- C1: starting from `create_campaign` (status=open, accepted_count=0,
capacity ≥ 1), after any sequence of `rsvp_campaign` transactions the
campaign satisfies `0 ≤ accepted_count ≤ capacity`; moreover a single
transaction either leaves `accepted_count` unchanged, or — only in the YES
branch, only when status is open and `accepted_count < capacity` was
checked — increments it by exactly 1. -/
theorem rsvp_capacity_invariant (campaign_id : String) (cap : Int) (hcap : 1 ≤ cap)
    (calls : List (String × String)) :
    (0 ≤ (applyRSVPs campaign_id (create_campaign cap) calls).accepted_count ∧
      (applyRSVPs campaign_id (create_campaign cap) calls).accepted_count ≤ cap) ∧
    ∀ (c : CampaignState) (contact_id response : String),
      ((rsvp_tx campaign_id c contact_id response).2).accepted_count = c.accepted_count ∨
      (response = "yes" ∧ c.status = "open" ∧ c.accepted_count < c.capacity ∧
        ((rsvp_tx campaign_id c contact_id response).2).accepted_count =
          c.accepted_count + 1) := by
  constructor
  · have h := applyRSVPs_inv campaign_id calls (create_campaign cap)
      (by simp [create_campaign]) (by simp [create_campaign]; omega)
    have h2 := h.2
    rw [applyRSVPs_capacity] at h2
    exact ⟨h.1, h2⟩
  · intro c contact_id response
    simp only [rsvp_tx]
    split_ifs with hst hyes hprev hfull hnewfull
    · left; rfl
    · left; rfl
    · left; rfl
    · right
      exact ⟨hyes, not_not.mp hst, lt_of_not_ge hfull, rfl⟩
    · right
      exact ⟨hyes, not_not.mp hst, lt_of_not_ge hfull, rfl⟩
    · left; rfl

theorem lookupRSVP_upsertRSVP_self (l : List (String × String)) (cid resp : String) :
    lookupRSVP (upsertRSVP l cid resp) cid = some resp := by
  induction l with
  | nil => simp [upsertRSVP, lookupRSVP]
  | cons p rest ih =>
    by_cases hp : p.1 == cid <;>
      by_cases hs : (List.find? (fun q => q.1 == cid) rest).isSome <;>
        simp_all [upsertRSVP, lookupRSVP, List.find?_cons]

theorem rsvp_tx_not_open_eq (campaign_id : String) (c : CampaignState)
    (contact_id response : String) (h : c.status ≠ "open") :
    rsvp_tx campaign_id c contact_id response =
      ({ accepted := false, campaign_id := campaign_id,
         remaining_slots := max 0 (c.capacity - c.accepted_count),
         status := c.status }, c) := by
  simp only [rsvp_tx, if_pos h]

theorem rsvp_tx_prev_yes_eq (campaign_id : String) (c : CampaignState) (r : String)
    (hopen : c.status = "open") (hprev : lookupRSVP c.rsvps r = some "yes") :
    rsvp_tx campaign_id c r "yes" =
      ({ accepted := true, campaign_id := campaign_id,
         remaining_slots := max 0 (c.capacity - c.accepted_count),
         status := c.status }, c) := by
  rw [rsvp_tx, if_neg (by simp [hopen]), if_pos rfl, if_pos hprev]

theorem rsvp_tx_fresh_yes_eq (campaign_id : String) (c : CampaignState) (r : String)
    (hopen : c.status = "open") (hcap : c.accepted_count < c.capacity)
    (hprev : lookupRSVP c.rsvps r ≠ some "yes") :
    rsvp_tx campaign_id c r "yes" =
      ({ accepted := true, campaign_id := campaign_id,
         remaining_slots := max 0 (c.capacity - (c.accepted_count + 1)),
         status := if c.accepted_count + 1 ≥ c.capacity then "closed" else "open" },
       { c with rsvps := upsertRSVP c.rsvps r "yes",
                accepted_count := c.accepted_count + 1,
                status := if c.accepted_count + 1 ≥ c.capacity then "closed" else "open" }) := by
  rw [rsvp_tx, if_neg (by simp [hopen]), if_pos rfl, if_neg hprev,
    if_neg (not_le.mpr hcap)]

theorem rsvp_tx_full_yes_eq (campaign_id : String) (c : CampaignState) (r : String)
    (hopen : c.status = "open") (hcap : c.accepted_count ≥ c.capacity)
    (hprev : lookupRSVP c.rsvps r ≠ some "yes") :
    rsvp_tx campaign_id c r "yes" =
      ({ accepted := false, campaign_id := campaign_id,
         remaining_slots := 0, status := "closed" },
       { c with status := "closed" }) := by
  rw [rsvp_tx, if_neg (by simp [hopen]), if_pos rfl, if_neg hprev, if_pos hcap]

theorem rsvp_tx_no_eq (campaign_id : String) (c : CampaignState) (r response : String)
    (hopen : c.status = "open") (hresp : response ≠ "yes") :
    rsvp_tx campaign_id c r response =
      ({ accepted := false, campaign_id := campaign_id,
         remaining_slots := max 0 (c.capacity - c.accepted_count),
         status := c.status },
       { c with rsvps := upsertRSVP c.rsvps r "no" }) := by
  rw [rsvp_tx, if_neg (by simp [hopen]), if_neg hresp]

/-- C1 witness: capacity 2, three YES calls; the invariant holds concretely. -/
theorem rsvp_capacity_invariant_witness :
    0 ≤ (applyRSVPs "c" (create_campaign 2)
        [("a", "yes"), ("b", "yes"), ("d", "yes")]).accepted_count ∧
      (applyRSVPs "c" (create_campaign 2)
        [("a", "yes"), ("b", "yes"), ("d", "yes")]).accepted_count ≤ 2 :=
  (rsvp_capacity_invariant "c" 2 (by decide)
    [("a", "yes"), ("b", "yes"), ("d", "yes")]).1

/-- C3: a YES from a recipient without a prior YES record, on an open campaign
with a free slot, upserts the record to yes, increments `accepted_count` by 1,
closes the campaign exactly when the new count reaches capacity, and returns
`accepted=true` with `remaining_slots = max 0 (capacity - new_count)` and the
new status; concretely with capacity 2 the three fresh YES calls return
(true,1,open), (true,0,closed), (false,0,closed). -/
theorem rsvp_fresh_yes_accepts (campaign_id : String) (c : CampaignState) (r : String)
    (hopen : c.status = "open") (hcap : c.accepted_count < c.capacity)
    (hprev : lookupRSVP c.rsvps r ≠ some "yes") :
    ((rsvp_tx campaign_id c r "yes").1.accepted = true ∧
      ((rsvp_tx campaign_id c r "yes").2).accepted_count = c.accepted_count + 1 ∧
      (rsvp_tx campaign_id c r "yes").1.remaining_slots =
        max 0 (c.capacity - (c.accepted_count + 1)) ∧
      (((rsvp_tx campaign_id c r "yes").2).status = "closed" ↔
        c.accepted_count + 1 ≥ c.capacity) ∧
      (rsvp_tx campaign_id c r "yes").1.status =
        ((rsvp_tx campaign_id c r "yes").2).status ∧
      lookupRSVP ((rsvp_tx campaign_id c r "yes").2).rsvps r = some "yes" ∧
      ((rsvp_tx campaign_id c r "yes").2).capacity = c.capacity) ∧
    ((rsvp_tx "c" (create_campaign 2) "r1" "yes").1 =
        { accepted := true, campaign_id := "c", remaining_slots := 1, status := "open" } ∧
      (rsvp_tx "c" (rsvp_tx "c" (create_campaign 2) "r1" "yes").2 "r2" "yes").1 =
        { accepted := true, campaign_id := "c", remaining_slots := 0, status := "closed" } ∧
      (rsvp_tx "c" (rsvp_tx "c" (rsvp_tx "c" (create_campaign 2) "r1" "yes").2
          "r2" "yes").2 "r3" "yes").1 =
        { accepted := false, campaign_id := "c", remaining_slots := 0,
          status := "closed" }) := by
  constructor
  · rw [rsvp_tx_fresh_yes_eq campaign_id c r hopen hcap hprev]
    by_cases hf : c.accepted_count + 1 ≥ c.capacity
    · rw [if_pos hf]
      exact ⟨rfl, rfl, rfl, by simpa using hf, rfl,
        lookupRSVP_upsertRSVP_self _ _ _, rfl⟩
    · rw [if_neg hf]
      refine ⟨rfl, rfl, rfl, ?_, rfl, lookupRSVP_upsertRSVP_self _ _ _, rfl⟩
      constructor
      · intro h
        exact absurd (show ("open" : String) = "closed" from h) (by decide)
      · intro h; exact absurd h hf
  · exact ⟨by decide, by decide, by decide⟩

/-- C3 witness: capacity 2, first fresh YES. -/
theorem rsvp_fresh_yes_accepts_witness :
    (rsvp_tx "c" (create_campaign 2) "r1" "yes").1.accepted = true ∧
    ((rsvp_tx "c" (create_campaign 2) "r1" "yes").2).accepted_count =
      (create_campaign 2).accepted_count + 1 :=
  ⟨((rsvp_fresh_yes_accepts "c" (create_campaign 2) "r1" rfl (by decide) (by decide)).1).1,
   ((rsvp_fresh_yes_accepts "c" (create_campaign 2) "r1" rfl (by decide) (by decide)).1).2.1⟩

/-- C4: on a campaign whose status is closed, any RSVP returns accepted=false
with `remaining_slots = max 0 (capacity - accepted_count)` and status closed,
and the campaign state (count, status, capacity, RSVP records) is unchanged —
closing is sticky. -/
theorem rsvp_closed_noop (campaign_id : String) (c : CampaignState)
    (contact_id response : String) (h : c.status = "closed") :
    rsvp_tx campaign_id c contact_id response =
      ({ accepted := false, campaign_id := campaign_id,
         remaining_slots := max 0 (c.capacity - c.accepted_count),
         status := "closed" }, c) := by
  rw [rsvp_tx_not_open_eq campaign_id c contact_id response (by rw [h]; decide), h]

/-- C4 witness: a closed campaign with one free slot rejects a YES and stays
exactly as it was. -/
theorem rsvp_closed_noop_witness :
    rsvp_tx "c" ⟨3, 2, "closed", []⟩ "r" "yes" =
      ({ accepted := false, campaign_id := "c",
         remaining_slots := max 0 ((3 : Int) - 2), status := "closed" },
       ⟨3, 2, "closed", []⟩) :=
  rsvp_closed_noop "c" ⟨3, 2, "closed", []⟩ "r" "yes" rfl

/-- C5 counterexample: capacity 1, fresh recipient. The first YES is accepted
and fills the last slot, which closes the campaign; the closed check runs
before the already-yes check, so the second YES returns accepted=false —
refuting "accepted=true both times" for every campaign and recipient. -/
theorem respond_yes_twice_counterexample :
    (rsvp_tx "c" (create_campaign 1) "r" "yes").1.accepted = true ∧
    (rsvp_tx "c" ((rsvp_tx "c" (create_campaign 1) "r" "yes").2) "r" "yes").1.accepted =
      false := by
  decide

/-- C5 (amended): if the campaign is open and is still open after the first
`respond(c, r, YES)`, then both calls return accepted=true, and the second
call returns the same remaining_slots as the first and does not increment
accepted_count. -/
theorem respond_yes_twice_idempotent_while_open (campaign_id : String)
    (c : CampaignState) (r : String) (hopen : c.status = "open")
    (hopen2 : ((rsvp_tx campaign_id c r "yes").2).status = "open") :
    (rsvp_tx campaign_id c r "yes").1.accepted = true ∧
    (rsvp_tx campaign_id ((rsvp_tx campaign_id c r "yes").2) r "yes").1.accepted = true ∧
    (rsvp_tx campaign_id ((rsvp_tx campaign_id c r "yes").2) r "yes").1.remaining_slots =
      (rsvp_tx campaign_id c r "yes").1.remaining_slots ∧
    ((rsvp_tx campaign_id ((rsvp_tx campaign_id c r "yes").2) r "yes").2).accepted_count =
      ((rsvp_tx campaign_id c r "yes").2).accepted_count := by
  by_cases hprev : lookupRSVP c.rsvps r = some "yes"
  · have he := rsvp_tx_prev_yes_eq campaign_id c r hopen hprev
    have hs2 : (rsvp_tx campaign_id c r "yes").2 = c := by rw [he]
    rw [hs2, he]
    exact ⟨rfl, rfl, rfl, rfl⟩
  · by_cases hfull : c.accepted_count ≥ c.capacity
    · exfalso
      have he := rsvp_tx_full_yes_eq campaign_id c r hopen hfull hprev
      rw [he] at hopen2
      exact absurd (show ("closed" : String) = "open" from hopen2) (by decide)
    · have he := rsvp_tx_fresh_yes_eq campaign_id c r hopen (lt_of_not_ge hfull) hprev
      have hnf : ¬(c.accepted_count + 1 ≥ c.capacity) := by
        intro hf
        rw [he] at hopen2
        rw [if_pos hf] at hopen2
        exact absurd (show ("closed" : String) = "open" from hopen2) (by decide)
      have hs2 : (rsvp_tx campaign_id c r "yes").2 =
          { c with rsvps := upsertRSVP c.rsvps r "yes",
                   accepted_count := c.accepted_count + 1, status := "open" } := by
        rw [he, if_neg hnf]
      have he2 := rsvp_tx_prev_yes_eq campaign_id
        { c with rsvps := upsertRSVP c.rsvps r "yes",
                 accepted_count := c.accepted_count + 1, status := "open" } r rfl
        (lookupRSVP_upsertRSVP_self _ _ _)
      rw [hs2, he2, he, if_neg hnf]
      exact ⟨rfl, rfl, rfl, rfl⟩

/-- C5 (amended) witness: capacity 2, the first YES keeps the campaign open. -/
theorem respond_yes_twice_idempotent_while_open_witness :
    (rsvp_tx "c" (create_campaign 2) "a" "yes").1.accepted = true ∧
    (rsvp_tx "c" ((rsvp_tx "c" (create_campaign 2) "a" "yes").2) "a" "yes").1.accepted =
      true :=
  ⟨(respond_yes_twice_idempotent_while_open "c" (create_campaign 2) "a" rfl (by decide)).1,
   (respond_yes_twice_idempotent_while_open "c" (create_campaign 2) "a" rfl
      (by decide)).2.1⟩

/-- C6: a NO on an open campaign upserts the recipient's record to no and
returns accepted=false, `remaining_slots = max 0 (capacity - accepted_count)`,
status open, leaving accepted_count, status and capacity unchanged — for every
prior record, including a prior YES (the flip never decrements). -/
theorem rsvp_no_keeps_count (campaign_id : String) (c : CampaignState) (r : String)
    (hopen : c.status = "open") :
    rsvp_tx campaign_id c r "no" =
      ({ accepted := false, campaign_id := campaign_id,
         remaining_slots := max 0 (c.capacity - c.accepted_count),
         status := "open" },
       { c with rsvps := upsertRSVP c.rsvps r "no" }) ∧
    lookupRSVP ((rsvp_tx campaign_id c r "no").2).rsvps r = some "no" := by
  have he := rsvp_tx_no_eq campaign_id c r "no" hopen (by decide)
  rw [he, hopen]
  exact ⟨rfl, lookupRSVP_upsertRSVP_self _ _ _⟩

/-- C6 witness: prior YES flipped to NO; accepted_count stays at 1. -/
theorem rsvp_no_keeps_count_witness :
    rsvp_tx "c" ⟨2, 1, "open", [("a", "yes")]⟩ "a" "no" =
      ({ accepted := false, campaign_id := "c",
         remaining_slots := max 0 ((2 : Int) - 1), status := "open" },
       { capacity := 2, accepted_count := 1, status := "open",
         rsvps := upsertRSVP [("a", "yes")] "a" "no" }) :=
  (rsvp_no_keeps_count "c" ⟨2, 1, "open", [("a", "yes")]⟩ "a" rfl).1

/-- C2: the engine runs inside a Firestore transaction, so concurrent
`respond` calls on one campaign are serializable: any concurrent execution
equals one of the serial orders, and quantifying over the two distinct
recipients covers both orders. With capacity 1 and accepted_count 0, the
first serialized YES is accepted and the second rejected — never both
accepted, never both rejected — and the final state has accepted_count=1,
status closed. -/
theorem concurrent_yes_last_slot (campaign_id r1 r2 : String) (_hne : r1 ≠ r2) :
    (rsvp_tx campaign_id (create_campaign 1) r1 "yes").1.accepted = true ∧
    (rsvp_tx campaign_id ((rsvp_tx campaign_id (create_campaign 1) r1 "yes").2)
      r2 "yes").1.accepted = false ∧
    ((rsvp_tx campaign_id ((rsvp_tx campaign_id (create_campaign 1) r1 "yes").2)
      r2 "yes").2).accepted_count = 1 ∧
    ((rsvp_tx campaign_id ((rsvp_tx campaign_id (create_campaign 1) r1 "yes").2)
      r2 "yes").2).status = "closed" := by
  have he1 := rsvp_tx_fresh_yes_eq campaign_id (create_campaign 1) r1 rfl
    (by decide) (by simp [create_campaign, lookupRSVP])
  have hfull : ((create_campaign 1).accepted_count + 1 ≥ (create_campaign 1).capacity) := by
    decide
  rw [if_pos hfull] at he1
  have hs1 : (rsvp_tx campaign_id (create_campaign 1) r1 "yes").2 =
      { create_campaign 1 with
          rsvps := upsertRSVP (create_campaign 1).rsvps r1 "yes",
          accepted_count := (create_campaign 1).accepted_count + 1,
          status := "closed" } := by
    rw [he1]
  have he2 := rsvp_tx_not_open_eq campaign_id
    { create_campaign 1 with
        rsvps := upsertRSVP (create_campaign 1).rsvps r1 "yes",
        accepted_count := (create_campaign 1).accepted_count + 1,
        status := "closed" } r2 "yes" (show ("closed" : String) ≠ "open" by decide)
  rw [hs1, he2, he1]
  exact ⟨rfl, rfl, rfl, rfl⟩

/-- C2 witness: the two recipients "a" and "b". -/
theorem concurrent_yes_last_slot_witness :
    (rsvp_tx "c" (create_campaign 1) "a" "yes").1.accepted = true ∧
    (rsvp_tx "c" ((rsvp_tx "c" (create_campaign 1) "a" "yes").2)
      "b" "yes").1.accepted = false :=
  ⟨(concurrent_yes_last_slot "c" "a" "b" (by decide)).1,
   (concurrent_yes_last_slot "c" "a" "b" (by decide)).2.1⟩

theorem lookupActive_setActive_self (r : Registry) (cid : String) (g : List WS) :
    lookupActive (setActive r cid g) cid = (lookupActive r cid).map (fun _ => g) := by
  induction r with
  | nil => rfl
  | cons p rest ih =>
    by_cases hp : p.1 == cid <;>
      simp_all [setActive, lookupActive, List.find?_cons, hp]

theorem lookupActive_popActive_self (r : Registry) (cid : String) :
    lookupActive (popActive r cid) cid = none := by
  induction r with
  | nil => rfl
  | cons p rest ih =>
    by_cases hp : p.1 == cid <;>
      simp_all [popActive, lookupActive, List.find?_cons, List.filter_cons, hp]

theorem connectionsOf_popActive (r : Registry) (cid : String) :
    connectionsOf (popActive r cid) cid = [] := by
  unfold connectionsOf
  rw [lookupActive_popActive_self]
  rfl

theorem wsDisconnect_eq (r : Registry) (cid : String) (ws : WS) :
    wsDisconnect r cid ws =
      if ws ∈ connectionsOf r cid then
        if ((connectionsOf r cid).filter (fun w => w ≠ ws)).isEmpty
        then popActive r cid
        else setActive r cid ((connectionsOf r cid).filter (fun w => w ≠ ws))
      else r := rfl

theorem connectionsOf_wsDisconnect_self (r : Registry) (cid : String) (w : WS) :
    connectionsOf (wsDisconnect r cid w) cid =
      (connectionsOf r cid).filter (fun v => v ≠ w) := by
  by_cases hw : w ∈ connectionsOf r cid
  · rw [wsDisconnect_eq, if_pos hw]
    by_cases he : ((connectionsOf r cid).filter (fun v => v ≠ w)).isEmpty
    · rw [if_pos he, connectionsOf_popActive]
      exact (List.isEmpty_iff.mp he).symm
    · rw [if_neg he]
      unfold connectionsOf
      rw [lookupActive_setActive_self]
      cases hl : lookupActive r cid with
      | none =>
        exfalso
        unfold connectionsOf at hw
        rw [hl] at hw
        exact absurd hw (List.not_mem_nil w)
      | some g => rfl
  · rw [wsDisconnect_eq, if_neg hw]
    refine (List.filter_eq_self.mpr ?_).symm
    intro a ha
    exact decide_eq_true (fun hb => hw (hb ▸ ha))

theorem connectionsOf_wsDisconnect_subset (r : Registry) (cid : String) (w x : WS)
    (h : x ∈ connectionsOf (wsDisconnect r cid w) cid) : x ∈ connectionsOf r cid := by
  rw [connectionsOf_wsDisconnect_self] at h
  exact List.mem_of_mem_filter h

theorem not_mem_wsDisconnect_self (r : Registry) (cid : String) (w : WS) :
    w ∉ connectionsOf (wsDisconnect r cid w) cid := by
  rw [connectionsOf_wsDisconnect_self]
  intro hmem
  have := List.of_mem_filter hmem
  simp at this

theorem not_mem_sendLoop (ok : WS → Bool) (cid : String) (l : List WS) :
    ∀ (r : Registry) (w : WS), w ∉ connectionsOf r cid →
      w ∉ connectionsOf (sendLoop ok cid l r).2 cid := by
  induction l with
  | nil => intro r w hw; exact hw
  | cons v rest ih =>
    intro r w hw
    by_cases hv : ok v
    · simp only [sendLoop, if_pos hv]
      exact ih r w hw
    · simp only [sendLoop, if_neg hv]
      refine ih _ w ?_
      intro hmem
      exact hw (connectionsOf_wsDisconnect_subset r cid v w hmem)

theorem sendLoop_count (ok : WS → Bool) (cid : String) (l : List WS) :
    ∀ r : Registry, (sendLoop ok cid l r).1 = (l.filter ok).length := by
  induction l with
  | nil => intro r; rfl
  | cons v rest ih =>
    intro r
    by_cases hv : ok v <;>
      simp [sendLoop, hv, ih, List.filter_cons]

theorem sendLoop_excludes (ok : WS → Bool) (cid : String) (l : List WS) :
    ∀ (r : Registry) (w : WS), w ∈ l → ok w = false →
      w ∉ connectionsOf (sendLoop ok cid l r).2 cid := by
  induction l with
  | nil => intro r w hw _; exact absurd hw (List.not_mem_nil w)
  | cons v rest ih =>
    intro r w hw hok
    rcases List.mem_cons.mp hw with rfl | hw2
    · simp only [sendLoop, hok, if_neg]
      exact not_mem_sendLoop ok cid rest _ w (not_mem_wsDisconnect_self r cid w)
    · by_cases hv : ok v
      · simp only [sendLoop, if_pos hv]
        exact ih r w hw2 hok
      · simp only [sendLoop, if_neg hv]
        exact ih _ w hw2 hok

/-- C9: `send_personal_message` returns exactly the number of connections in
the recipient's snapshot whose send succeeded, unregisters every connection
whose send failed (so a subsequent lookup of the recipient's connections
excludes them), and, being a total function, absorbs per-connection failures
instead of raising them to its caller. -/
theorem send_to_self_healing (r : Registry) (cid : String) (ok : WS → Bool) :
    (sendPersonalMessage ok r cid).1 = ((connectionsOf r cid).filter ok).length ∧
    ∀ w ∈ connectionsOf r cid, ok w = false →
      w ∉ connectionsOf (sendPersonalMessage ok r cid).2 cid := by
  constructor
  · exact sendLoop_count ok cid (connectionsOf r cid) r
  · intro w hw hok
    exact sendLoop_excludes ok cid (connectionsOf r cid) r w hw hok

/-- C9 witness: recipient with sockets 1,2,3; sends to 1 and 3 succeed and the
send to 2 fails: delivered_count is 2 and socket 2 is no longer registered. -/
theorem send_to_self_healing_witness :
    (sendPersonalMessage (fun w => w % 2 == 1) [("alice", [1, 2, 3])] "alice").1 = 2 ∧
    2 ∉ connectionsOf
        (sendPersonalMessage (fun w => w % 2 == 1) [("alice", [1, 2, 3])] "alice").2
        "alice" := by
  constructor
  · have h := (send_to_self_healing [("alice", [1, 2, 3])] "alice"
      (fun w => w % 2 == 1)).1
    rw [h]
    decide
  · exact (send_to_self_healing [("alice", [1, 2, 3])] "alice"
      (fun w => w % 2 == 1)).2 2 (by decide) (by decide)

/-- C10: when `disconnect` removes the last connection a recipient holds, the
recipient's key is popped from the registry map entirely, and a subsequent
lookup of the recipient's connections yields the empty set. -/
theorem unregister_last_removes_entry (r : Registry) (cid : String) (w : WS)
    (h : lookupActive r cid = some [w]) :
    lookupActive (wsDisconnect r cid w) cid = none ∧
    connectionsOf (wsDisconnect r cid w) cid = [] := by
  have hd : wsDisconnect r cid w = popActive r cid := by
    unfold wsDisconnect
    rw [h]
    simp
  rw [hd]
  refine ⟨lookupActive_popActive_self r cid, ?_⟩
  unfold connectionsOf
  rw [lookupActive_popActive_self]
  rfl

/-- C10 witness: "bob" holds the single socket 5; after disconnecting it the
registry holds no entry for "bob". -/
theorem unregister_last_removes_entry_witness :
    lookupActive (wsDisconnect [("bob", [5]), ("eve", [7])] "bob" 5) "bob" = none ∧
    connectionsOf (wsDisconnect [("bob", [5]), ("eve", [7])] "bob" 5) "bob" = [] :=
  unregister_last_removes_entry [("bob", [5]), ("eve", [7])] "bob" 5 (by decide)

/-- C7: a campaign_id that references no campaign makes `rsvp_campaign` raise
`ValueError("campaign_not_found")` before any write, so the campaigns
collection is unchanged and no RSVP record is created; but `rsvp_endpoint`
has no handler for that exception, so the HTTP caller receives an
unhandled-exception 500 server error, not a NotFound client error. -/
theorem rsvp_not_found_unhandled :
    rsvp_campaign [("c1", create_campaign 2)] "missing" "r1" "yes" =
      (.error "campaign_not_found", [("c1", create_campaign 2)]) ∧
    rsvp_endpoint [("c1", create_campaign 2)] "missing" "r1" "yes" =
      (.serverError "campaign_not_found", [("c1", create_campaign 2)]) :=
  ⟨rfl, by decide⟩

/-- C8: the response value "maybe" is neither yes nor no and is not an
accepted alias, yet `RSVPIn._normalize` passes it through unchanged, nothing
rejects it, and the repository's else-branch silently records it as a NO
RSVP and the endpoint returns a 200 success — not an InvalidRequest client
error. -/
theorem invalid_response_recorded_as_no :
    normalizeResponse "maybe" = "maybe" ∧
    (rsvp_tx "c1" (create_campaign 7) "r1" "maybe").1.accepted = false ∧
    lookupRSVP ((rsvp_tx "c1" (create_campaign 7) "r1" "maybe").2).rsvps "r1" =
      some "no" ∧
    (rsvp_endpoint [("c1", create_campaign 7)] "c1" "r1" "maybe").1 =
      .success { accepted := false, campaign_id := "c1", remaining_slots := 7,
                 status := "open" } := by
  decide

end Nexo
